import Mathlib

/-!
Shallow embedding of the request-execution and authentication-resolution
core of the python-teamcity client (src/teamcity/teamcity.py), together
with proofs about it.

Modelling conventions:
* Python dicts used for HTTP headers are modelled as lookup functions
  String -> Option String; dict.update and single-key assignment are the
  corresponding pointwise overrides.  In-place mutation of a dict is
  modelled by returning the updated map (the TeamCity client object after
  a call carries the updated header map, mirroring the aliasing
  headers = self.header in request_base).
* The HTTP transport (requests.Session.request) is an oracle indexed by
  the number of transport invocations made so far; it either returns a
  response (status plus body) or raises a transport-level exception.
* Response bodies are abstracted to the one distinction the client
  observes: a well-formed JSON key/value document (carrying its mapping)
  or a malformed body on which response.json() raises.
* Server address strings are Lean String values; startswith, endswith and
  the slice s[:-1] are modelled on the underlying character list.
-/

namespace TeamCity

/-- Python dict with string keys and values, seen through lookup. -/
abbrev Headers := String → Option String

/-- The empty dict. -/
def emptyHeaders : Headers := fun _ => none

/-- Single-key assignment d[k] = v. -/
def dictSet (d : Headers) (k v : String) : Headers :=
  fun x => if x = k then some v else d x

/-- Python d.update(e): every key of e overrides d. -/
def dictUpdate (d e : Headers) : Headers :=
  fun x => match e x with
  | some v => some v
  | none => d x

/-- Boolean test that p is an initial segment of l (character lists). -/
def isHeadOf : List Char → List Char → Bool
  | [], _ => true
  | _ :: _, [] => false
  | a :: p, b :: l => a == b && isHeadOf p l

/-- Model of the Python str.startswith(p). -/
def strStartsWith (s p : String) : Bool := isHeadOf p.data s.data

/-- Model of the Python str.endswith of a single slash. -/
def strEndsWithSlash (s : String) : Bool := s.data.getLast? = some '/'

/-- Model of the Python slice s[:-1]. -/
def strDropLast (s : String) : String := String.mk s.data.dropLast

/-- Python truthiness of an optional string: present and non-empty. -/
def truthy : Option String → Bool
  | none => false
  | some s => s != ""

/-- AuthMethod enum of teamcity_const.py. -/
inductive AuthMethod where
  | TOKENS
  | USER
  | GUEST
  | LOGGED_IN
deriving DecidableEq, Repr

/-- TeamCity.process_server_address: reject a missing or empty address,
strip one trailing slash, default the scheme to https. -/
def process_server_address (server : Option String) : Except String String :=
  match server with
  | none => Except.error "TeamCity server is not set."
  | some s =>
    if s = "" then Except.error "TeamCity server is not set."
    else
      let s1 := if strEndsWithSlash s then strDropLast s else s
      Except.ok
        (if strStartsWith s1 "http://" || strStartsWith s1 "https://" then s1
         else "https://" ++ s1)

/-- The credential fields of the client after __init__ has filled them
(the environment-variable fallback is outside the model; the fields hold
whatever value resolution produced).  The server field is the already
normalized address. -/
structure Config where
  server : String
  tokens : Option String
  user : Option String
  password : Option String
  guest : Bool

/-- Result triple of TeamCity.check_auth_method. -/
structure AuthInfo where
  method : AuthMethod
  base_url : String
  header : Headers

/-- The header dict literal at the top of check_auth_method. -/
def base_header : Headers := dictSet emptyHeaders "Accept" "application/json"

/-- TeamCity.check_auth_method: first-match precedence
tokens, then user+password, then guest, then logged-in. -/
def check_auth_method (cfg : Config) : AuthInfo :=
  if truthy cfg.tokens then
    { method := AuthMethod.TOKENS
      base_url := cfg.server ++ "/app/rest"
      header := dictSet base_header "Authorization"
        ("Bearer " ++ cfg.tokens.getD "") }
  else if truthy cfg.user && truthy cfg.password then
    { method := AuthMethod.USER
      base_url := cfg.server ++ "/httpAuth/app/rest"
      header := base_header }
  else if cfg.guest then
    { method := AuthMethod.GUEST
      base_url := cfg.server ++ "/guestAuth/app/rest"
      header := base_header }
  else
    { method := AuthMethod.LOGGED_IN
      base_url := cfg.server ++ "/app/rest"
      header := base_header }

/-- Response bodies, abstracted to what the client observes through
response.json(): either a well-formed JSON key/value document carrying
its mapping, or a malformed body on which json() raises. -/
inductive Body where
  | wellFormed : List (String × String) → Body
  | malformed : Body
deriving DecidableEq, Repr

/-- Model of response.json(): succeeds exactly on a well-formed body. -/
def json_decode : Body → Option (List (String × String))
  | Body.wellFormed kvs => some kvs
  | Body.malformed => none

/-- An HTTP response as the client observes it. -/
structure Response where
  status : Nat
  body : Body
deriving DecidableEq, Repr

/-- One outcome of invoking session.request: a response came back, or a
transport-level exception was raised. -/
inductive TransportResult where
  | resp : Nat → Body → TransportResult
  | exn : TransportResult
deriving DecidableEq, Repr

/-- The transport oracle: result of the n-th invocation of
session.request (n counts transport invocations made so far). -/
abbrev Transport := Nat → TransportResult

/-- Errors escaping request_base.  The ValueError raised in the
LOGGED_IN branch could only surface as authRequired, but it is raised
inside the try block and swallowed by the blanket except clause, so
request_base only ever surfaces noRetriesLeft; its payload is the
status code of the last response, none standing for the NA marker. -/
inductive ReqError where
  | authRequired : ReqError
  | noRetriesLeft : Option Nat → ReqError
deriving DecidableEq, Repr

/-- The client object: the fields of TeamCity set by __init__ that
request_base reads.  The user/password pair is carried to the transport
out of band for the USER method and is not otherwise observed, so it is
not repeated here. -/
structure Client where
  authentication_method : AuthMethod
  base_url : String
  header : Headers

/-- One iteration of the try/except block of request_base: for the
dispatching methods (TOKENS, USER, GUEST) session.request is invoked,
which either assigns response or raises (leaving response unchanged);
for LOGGED_IN the raised ValueError is caught by the except clause and
response is left unchanged with no transport invocation.  Returns the
response variable and the updated invocation count. -/
def attempt (auth : AuthMethod) (t : Transport) (n : Nat)
    (response : Option Response) : Option Response × Nat :=
  match auth with
  | AuthMethod.LOGGED_IN => (response, n)
  | _ =>
    match t n with
    | TransportResult.resp s b => (some (Response.mk s b), n + 1)
    | TransportResult.exn => (response, n + 1)

/-- The while retries > 0 loop of request_base, with its trailing else
clause raising ValueError (No retries left) carrying the last status
code or NA.  Returns the loop result and the transport invocation
count. -/
def request_loop (auth : AuthMethod) (t : Transport) :
    Nat → Nat → Option Response → Except ReqError Response × Nat
  | 0, n, response =>
    (Except.error (ReqError.noRetriesLeft (response.map Response.status)), n)
  | r + 1, n, response =>
    let a := attempt auth t n response
    match a.1 with
    | some resp =>
      if resp.status = 200 then (Except.ok resp, a.2)
      else request_loop auth t r a.2 (some resp)
    | none => request_loop auth t r a.2 none

/-- Everything observable about one call to request_base: the returned
response or raised error, the client object afterwards (request_base
aliases self.header and updates it in place, so the client header map
changes), the header map handed to every dispatch, the number of
transport invocations, the number of requests.Session() objects created
during the call, and the full URL. -/
structure RequestOutcome where
  result : Except ReqError Response
  client : Client
  headers_sent : Headers
  dispatches : Nat
  sessions_created : Nat
  full_url : String

/-- TeamCity.request_base.  headers is an alias of self.header, so the
update with extra_headers mutates the client default header map; a
fresh requests.Session() is constructed on every call, before the retry
loop. -/
def request_base (c : Client) (t : Transport) (url : String)
    (method : String) (extra_headers : Headers) (retries : Nat) :
    RequestOutcome :=
  let full_url := c.base_url ++ "/" ++ url
  let headers := dictUpdate c.header extra_headers
  let res := request_loop c.authentication_method t retries 0 none
  { result := res.1
    client := { c with header := headers }
    headers_sent := headers
    dispatches := res.2
    sessions_created := 1
    full_url := full_url }

/-- Result of post_request: the request_base outcome plus the caller
extra_headers dict after the call (post_request updates it in place). -/
structure PostOutcome where
  outcome : RequestOutcome
  extra_headers_after : Headers

/-- TeamCity.post_request: force Content-Type application/json into the
caller extra_headers dict (in place), then defer to request_base with
method POST. -/
def post_request (c : Client) (t : Transport) (url : String)
    (extra_headers : Headers) (retries : Nat) : PostOutcome :=
  let extra := dictSet extra_headers "Content-Type" "application/json"
  { outcome := request_base c t url "POST" extra retries
    extra_headers_after := extra }

/-- Errors escaping get_request: the request_base error, or the
exception raised by response.json() on a malformed body. -/
inductive GetError where
  | requestFailed : ReqError → GetError
  | decodeError : GetError
deriving DecidableEq, Repr

/-- Result of get_request: the decoded mapping or the error, plus the
underlying request_base outcome and the caller extra_headers dict after
the call (get_request updates it in place). -/
structure GetOutcome where
  result : Except GetError (List (String × String))
  outcome : RequestOutcome
  extra_headers_after : Headers

/-- TeamCity.get_request: force Accept application/json into the caller
extra_headers dict (in place), defer to request_base with method GET,
then decode the body with response.json(). -/
def get_request (c : Client) (t : Transport) (url : String)
    (extra_headers : Headers) (retries : Nat) : GetOutcome :=
  let extra := dictSet extra_headers "Accept" "application/json"
  let out := request_base c t url "GET" extra retries
  { result :=
      match out.result with
      | Except.error e => Except.error (GetError.requestFailed e)
      | Except.ok resp =>
        match json_decode resp.body with
        | some kvs => Except.ok kvs
        | none => Except.error GetError.decodeError
    outcome := out
    extra_headers_after := extra }

/-- TeamCity.__init__ restricted to what the claims observe: normalize
the server address (raising on a missing one), then resolve the
authentication method, base URL and default headers. -/
def teamcity_init (server : Option String) (tokens user password : Option String)
    (guest : Bool) : Except String Client :=
  (process_server_address server).map fun srv =>
    let a := check_auth_method
      { server := srv, tokens := tokens, user := user,
        password := password, guest := guest }
    { authentication_method := a.method, base_url := a.base_url,
      header := a.header }

/-! Concrete fixtures used by witnesses, counterexamples and the
code-bug evaluations. -/

/-- A transport stub that answers 200 with a fixed well-formed body on
every invocation. -/
def t200 : Transport :=
  fun _ => TransportResult.resp 200 (Body.wellFormed [("count", "1")])

/-- A transport stub that answers 503 on every invocation. -/
def t503 : Transport := fun _ => TransportResult.resp 503 Body.malformed

/-- A transport stub that answers 503 on the first invocation and 200
afterwards. -/
def t503then200 : Transport :=
  fun n => if n = 0 then TransportResult.resp 503 Body.malformed
           else TransportResult.resp 200 (Body.wellFormed [("count", "1")])

/-- A client resolved from a config with no credentials at all: the
Unauthenticated (LOGGED_IN) strategy. -/
def unauthClient : Client :=
  let a := check_auth_method
    { server := "https://ci.example.com", tokens := none, user := none,
      password := none, guest := false }
  { authentication_method := a.method, base_url := a.base_url,
    header := a.header }

/-- A client resolved from a config with the bearer token abc. -/
def tokenClient : Client :=
  let a := check_auth_method
    { server := "https://ci.example.com", tokens := some "abc", user := none,
      password := none, guest := false }
  { authentication_method := a.method, base_url := a.base_url,
    header := a.header }

/-- The end-to-end scenario config of the spec: token abc on server
https://ci.example.com, with every later-precedence field also set. -/
def e2eConfig : Config :=
  { server := "https://ci.example.com", tokens := some "abc",
    user := some "u", password := some "p", guest := true }

/-- Written from the spec words for claim C6: strip one trailing slash
if present. -/
def spec_strip (s : String) : String :=
  if strEndsWithSlash s then strDropLast s else s

/-- Written from the spec words for claim C6: put https in front when
neither scheme is present. -/
def spec_add_scheme (s : String) : String :=
  if strStartsWith s "http://" || strStartsWith s "https://" then s
  else "https://" ++ s

end TeamCity

namespace TeamCity

/-! General lemmas about the embedded executor. -/

/-- For a dispatching authentication method, one attempt on which the
transport answers with a response assigns that response and advances
the invocation count. -/
theorem attempt_eq_of_resp (auth : AuthMethod) (h : auth ≠ AuthMethod.LOGGED_IN)
    (t : Transport) (n : Nat) (resp0 : Option Response) (s : Nat) (b : Body)
    (hn : t n = TransportResult.resp s b) :
    attempt auth t n resp0 = (some (Response.mk s b), n + 1) := by
  cases auth with
  | LOGGED_IN => exact absurd rfl h
  | TOKENS => simp [attempt, hn]
  | USER => simp [attempt, hn]
  | GUEST => simp [attempt, hn]

/-- Stepping the retry loop past an attempt that produced a non-200
response: decrement the budget and keep the response as the last one
seen. -/
theorem request_loop_succ_resp (auth : AuthMethod) (t : Transport)
    (r n : Nat) (resp0 : Option Response) (s : Nat) (b : Body)
    (h : attempt auth t n resp0 = (some (Response.mk s b), n + 1))
    (hs : s ≠ 200) :
    request_loop auth t (r + 1) n resp0
      = request_loop auth t r (n + 1) (some (Response.mk s b)) := by
  simp only [request_loop, h]
  rw [if_neg hs]

/-- Stepping the retry loop past an attempt that produced a 200
response: return it immediately. -/
theorem request_loop_succ_200 (auth : AuthMethod) (t : Transport)
    (r n : Nat) (resp0 : Option Response) (b : Body)
    (h : attempt auth t n resp0 = (some (Response.mk 200 b), n + 1)) :
    request_loop auth t (r + 1) n resp0
      = (Except.ok (Response.mk 200 b), n + 1) := by
  simp only [request_loop, h]
  simp

/-- The retry loop only ever returns a response whose status is
exactly 200. -/
theorem request_loop_ok_status (auth : AuthMethod) (t : Transport) :
    ∀ (r n : Nat) (resp0 : Option Response) (resp : Response),
      (request_loop auth t r n resp0).1 = Except.ok resp →
      resp.status = 200 := by
  intro r
  induction r with
  | zero =>
    intro n resp0 resp h
    simp [request_loop] at h
  | succ k ih =>
    intro n resp0 resp h
    simp only [request_loop] at h
    cases hA : (attempt auth t n resp0).1 with
    | none =>
      rw [hA] at h
      exact ih _ _ _ h
    | some r1 =>
      rw [hA] at h
      dsimp only at h
      by_cases h200 : r1.status = 200
      · rw [if_pos h200] at h
        simp at h
        rw [← h]
        exact h200
      · rw [if_neg h200] at h
        exact ih _ _ _ h

/-- request_base only ever returns a response whose status is
exactly 200. -/
theorem request_base_ok_status (c : Client) (t : Transport) (url m : String)
    (eh : Headers) (r : Nat) (resp : Response)
    (h : (request_base c t url m eh r).result = Except.ok resp) :
    resp.status = 200 :=
  request_loop_ok_status c.authentication_method t r 0 none resp h

/-- Unfolding equation: the result field of get_request in terms of
request_base and json_decode. -/
theorem get_request_result_eq (c : Client) (t : Transport) (url : String)
    (eh : Headers) (r : Nat) :
    (get_request c t url eh r).result =
      match (request_base c t url "GET"
          (dictSet eh "Accept" "application/json") r).result with
      | Except.error e => Except.error (GetError.requestFailed e)
      | Except.ok resp =>
        match json_decode resp.body with
        | some kvs => Except.ok kvs
        | none => Except.error GetError.decodeError := rfl

/-- Unfolding equation: the underlying request_base outcome of
get_request. -/
theorem get_request_outcome_eq (c : Client) (t : Transport) (url : String)
    (eh : Headers) (r : Nat) :
    (get_request c t url eh r).outcome =
      request_base c t url "GET" (dictSet eh "Accept" "application/json") r := rfl

/-- A list is an initial segment of itself followed by anything. -/
theorem isHeadOf_append (p l : List Char) : isHeadOf p (p ++ l) = true := by
  induction p with
  | nil => rfl
  | cons a p ih => simp [isHeadOf, ih]

/-- The untouched append of the two string literals underlying
String.append. -/
theorem string_data_append (a b : String) : (a ++ b).data = a.data ++ b.data := rfl

/-- Characterization of process_server_address on a non-empty address:
it strips one trailing slash and then defaults the scheme, exactly the
spec-worded composition. -/
theorem process_ok_characterization (s : String) (hs : s ≠ "") :
    process_server_address (some s)
      = Except.ok (spec_add_scheme (spec_strip s)) := by
  simp [process_server_address, spec_add_scheme, spec_strip, hs]

/-- Every successful normalization result carries a scheme. -/
theorem process_ok_scheme (s r : String)
    (h : process_server_address (some s) = Except.ok r) :
    (strStartsWith r "http://" || strStartsWith r "https://") = true := by
  by_cases hs : s = ""
  · simp [process_server_address, hs] at h
  · rw [process_ok_characterization s hs] at h
    have hr : spec_add_scheme (spec_strip s) = r := by
      simpa using h
    subst hr
    unfold spec_add_scheme
    by_cases hc : (strStartsWith (spec_strip s) "http://"
        || strStartsWith (spec_strip s) "https://") = true
    · rw [if_pos hc]
      exact hc
    · rw [if_neg hc]
      have h2 : strStartsWith ("https://" ++ spec_strip s) "https://" = true := by
        unfold strStartsWith
        rw [string_data_append]
        exact isHeadOf_append _ _
      simp [h2]

/-- Every successful normalization result is non-empty. -/
theorem process_ok_ne_empty (s r : String)
    (h : process_server_address (some s) = Except.ok r) : r ≠ "" := by
  have hsch := process_ok_scheme s r h
  intro he
  subst he
  exact absurd hsch (by decide)

/-- Normalization is idempotent on every output that does not end with
a slash. -/
theorem process_idempotent_of_no_trailing (s r : String)
    (h : process_server_address (some s) = Except.ok r)
    (hr : strEndsWithSlash r = false) :
    process_server_address (some r) = Except.ok r := by
  have hne := process_ok_ne_empty s r h
  have hsch := process_ok_scheme s r h
  rw [process_ok_characterization r hne]
  simp only [spec_strip, spec_add_scheme, hr]
  simp [hsch]

/-- Claim C3: with a transport answering a non-200 status on every
invocation, request_base with retry budget 3 makes exactly 3 transport
invocations and then fails with the no-retries-left error carrying the
last observed status code (the NA marker would arise only when no
response was ever received); and request_base never hands a non-200
response back to the caller. -/
theorem C3_retry_exhaustion (c : Client) (t : Transport) (url m : String)
    (eh : Headers) (st : Nat → Nat) (bd : Nat → Body)
    (hauth : c.authentication_method ≠ AuthMethod.LOGGED_IN)
    (ht : ∀ n, t n = TransportResult.resp (st n) (bd n))
    (hst : ∀ n, st n ≠ 200) :
    (request_base c t url m eh 3).dispatches = 3 ∧
    (request_base c t url m eh 3).result
      = Except.error (ReqError.noRetriesLeft (some (st 2))) ∧
    ∀ (t2 : Transport) (r : Nat) (resp : Response),
      (request_base c t2 url m eh r).result = Except.ok resp →
      resp.status = 200 := by
  have a0 := attempt_eq_of_resp c.authentication_method hauth t 0 none
    (st 0) (bd 0) (ht 0)
  have a1 := attempt_eq_of_resp c.authentication_method hauth t 1
    (some (Response.mk (st 0) (bd 0))) (st 1) (bd 1) (ht 1)
  have a2 := attempt_eq_of_resp c.authentication_method hauth t 2
    (some (Response.mk (st 1) (bd 1))) (st 2) (bd 2) (ht 2)
  have s0 := request_loop_succ_resp c.authentication_method t 2 0 none
    (st 0) (bd 0) a0 (hst 0)
  have s1 := request_loop_succ_resp c.authentication_method t 1 1
    (some (Response.mk (st 0) (bd 0))) (st 1) (bd 1) a1 (hst 1)
  have s2 := request_loop_succ_resp c.authentication_method t 0 2
    (some (Response.mk (st 1) (bd 1))) (st 2) (bd 2) a2 (hst 2)
  have hloop : request_loop c.authentication_method t 3 0 none
      = (Except.error (ReqError.noRetriesLeft (some (st 2))), 3) := by
    rw [s0, s1, s2]
    simp [request_loop]
  refine ⟨?_, ?_, ?_⟩
  · show (request_loop c.authentication_method t 3 0 none).2 = 3
    rw [hloop]
  · show (request_loop c.authentication_method t 3 0 none).1 = _
    rw [hloop]
  · intro t2 r resp h
    exact request_base_ok_status c t2 url m eh r resp h

/-- Witness for C3 at a concrete input: the token client against the
always-503 stub. -/
theorem C3_retry_exhaustion_witness :
    (request_base tokenClient t503 "builds" "GET" emptyHeaders 3).dispatches = 3 ∧
    (request_base tokenClient t503 "builds" "GET" emptyHeaders 3).result
      = Except.error (ReqError.noRetriesLeft (some 503)) := by
  have h := C3_retry_exhaustion tokenClient t503 "builds" "GET" emptyHeaders
    (fun _ => 503) (fun _ => Body.malformed) (by decide)
    (fun _ => rfl) (fun _ => by simp)
  exact ⟨h.1, h.2.1⟩

/-- Claim C4: with a transport answering 503 on the first invocation
and 200 on the second, request_base with retry budget 3 returns the 200
response after exactly 2 transport invocations. -/
theorem C4_retry_short_circuit (c : Client) (t : Transport) (url m : String)
    (eh : Headers) (b0 b1 : Body)
    (hauth : c.authentication_method ≠ AuthMethod.LOGGED_IN)
    (h0 : t 0 = TransportResult.resp 503 b0)
    (h1 : t 1 = TransportResult.resp 200 b1) :
    (request_base c t url m eh 3).result = Except.ok (Response.mk 200 b1) ∧
    (request_base c t url m eh 3).dispatches = 2 := by
  have a0 := attempt_eq_of_resp c.authentication_method hauth t 0 none 503 b0 h0
  have a1 := attempt_eq_of_resp c.authentication_method hauth t 1
    (some (Response.mk 503 b0)) 200 b1 h1
  have s0 := request_loop_succ_resp c.authentication_method t 2 0 none
    503 b0 a0 (by decide)
  have s1 := request_loop_succ_200 c.authentication_method t 1 1
    (some (Response.mk 503 b0)) b1 a1
  have hloop : request_loop c.authentication_method t 3 0 none
      = (Except.ok (Response.mk 200 b1), 2) := by
    rw [s0, s1]
  refine ⟨?_, ?_⟩
  · show (request_loop c.authentication_method t 3 0 none).1 = _
    rw [hloop]
  · show (request_loop c.authentication_method t 3 0 none).2 = 2
    rw [hloop]

/-- Witness for C4 at a concrete input: the token client against the
503-then-200 stub. -/
theorem C4_retry_short_circuit_witness :
    (request_base tokenClient t503then200 "builds" "GET" emptyHeaders 3).result
      = Except.ok (Response.mk 200 (Body.wellFormed [("count", "1")])) ∧
    (request_base tokenClient t503then200 "builds" "GET" emptyHeaders 3).dispatches = 2 :=
  C4_retry_short_circuit tokenClient t503then200 "builds" "GET" emptyHeaders
    Body.malformed (Body.wellFormed [("count", "1")]) (by decide) rfl rfl

/-- Claim C1, evaluated at the failing input: the client resolved from
a config with no credentials carries the Unauthenticated (LOGGED_IN)
strategy, and a POST under it makes zero transport invocations, yet the
surfaced error is the retry-exhaustion ValueError carrying the NA
marker, not the authentication-required ValueError: the raise in the
LOGGED_IN branch of request_base sits inside the try block and is
swallowed by its own blanket except clause, so the loop burns the whole
retry budget before failing. -/
theorem C1_unauth_post_eval :
    unauthClient.authentication_method = AuthMethod.LOGGED_IN ∧
    (post_request unauthClient t200 "buildQueue" emptyHeaders 3).outcome.dispatches = 0 ∧
    (post_request unauthClient t200 "buildQueue" emptyHeaders 3).outcome.result
      = Except.error (ReqError.noRetriesLeft none) ∧
    (post_request unauthClient t200 "buildQueue" emptyHeaders 3).outcome.result
      ≠ Except.error ReqError.authRequired := by
  have h0 : (post_request unauthClient t200 "buildQueue" emptyHeaders 3).outcome.result
      = Except.error (ReqError.noRetriesLeft none) := rfl
  refine ⟨rfl, rfl, h0, ?_⟩
  rw [h0]
  simp

/-- Claim C2, evaluated at the failing input: under the Unauthenticated
strategy even a GET whose transport would answer 200 on the first
invocation is never dispatched; request_base raises and swallows the
ValueError for every HTTP method, so the call makes zero transport
invocations and fails with the retry-exhaustion error carrying NA
instead of returning the 200 response. -/
theorem C2_unauth_get_eval :
    (get_request unauthClient t200 "builds" emptyHeaders 3).outcome.dispatches = 0 ∧
    (get_request unauthClient t200 "builds" emptyHeaders 3).result
      = Except.error (GetError.requestFailed (ReqError.noRetriesLeft none)) :=
  ⟨rfl, rfl⟩

/-- Claim C5: authentication resolution follows first-match precedence
over the normalized server address: a non-empty token selects the Token
strategy regardless of the remaining fields, with base URL
server/app/rest and headers carrying Accept application/json and the
bearer Authorization; otherwise a present username and password pair
selects UserPassword with base URL server/httpAuth/app/rest and no
Authorization header; otherwise the guest flag selects Guest with base
URL server/guestAuth/app/rest; otherwise Unauthenticated with base URL
server/app/rest. -/
theorem C5_auth_precedence (cfg : Config) :
    (truthy cfg.tokens = true →
      (check_auth_method cfg).method = AuthMethod.TOKENS ∧
      (check_auth_method cfg).base_url = cfg.server ++ "/app/rest" ∧
      (check_auth_method cfg).header "Accept" = some "application/json" ∧
      (check_auth_method cfg).header "Authorization"
        = some ("Bearer " ++ cfg.tokens.getD "")) ∧
    (truthy cfg.tokens = false →
      (truthy cfg.user && truthy cfg.password) = true →
      (check_auth_method cfg).method = AuthMethod.USER ∧
      (check_auth_method cfg).base_url = cfg.server ++ "/httpAuth/app/rest" ∧
      (check_auth_method cfg).header "Accept" = some "application/json" ∧
      (check_auth_method cfg).header "Authorization" = none) ∧
    (truthy cfg.tokens = false →
      (truthy cfg.user && truthy cfg.password) = false →
      cfg.guest = true →
      (check_auth_method cfg).method = AuthMethod.GUEST ∧
      (check_auth_method cfg).base_url = cfg.server ++ "/guestAuth/app/rest") ∧
    (truthy cfg.tokens = false →
      (truthy cfg.user && truthy cfg.password) = false →
      cfg.guest = false →
      (check_auth_method cfg).method = AuthMethod.LOGGED_IN ∧
      (check_auth_method cfg).base_url = cfg.server ++ "/app/rest") := by
  refine ⟨?_, ?_, ?_, ?_⟩
  · intro h1
    have e : check_auth_method cfg =
        { method := AuthMethod.TOKENS
          base_url := cfg.server ++ "/app/rest"
          header := dictSet base_header "Authorization"
            ("Bearer " ++ cfg.tokens.getD "") } := by
      simp [check_auth_method, h1]
    rw [e]
    exact ⟨rfl, rfl, rfl, rfl⟩
  · intro h1 h2
    have e : check_auth_method cfg =
        { method := AuthMethod.USER
          base_url := cfg.server ++ "/httpAuth/app/rest"
          header := base_header } := by
      simp [check_auth_method, h1, h2]
    rw [e]
    exact ⟨rfl, rfl, rfl, rfl⟩
  · intro h1 h2 h3
    have e : check_auth_method cfg =
        { method := AuthMethod.GUEST
          base_url := cfg.server ++ "/guestAuth/app/rest"
          header := base_header } := by
      simp [check_auth_method, h1, h2, h3]
    rw [e]
    exact ⟨rfl, rfl⟩
  · intro h1 h2 h3
    have e : check_auth_method cfg =
        { method := AuthMethod.LOGGED_IN
          base_url := cfg.server ++ "/app/rest"
          header := base_header } := by
      simp [check_auth_method, h1, h2, h3]
    rw [e]
    exact ⟨rfl, rfl⟩

/-- Witness for C5 at the end-to-end scenario of the spec: token abc on
server https://ci.example.com. -/
theorem C5_auth_precedence_witness :
    (check_auth_method e2eConfig).method = AuthMethod.TOKENS ∧
    (check_auth_method e2eConfig).base_url = "https://ci.example.com/app/rest" ∧
    (check_auth_method e2eConfig).header "Accept" = some "application/json" ∧
    (check_auth_method e2eConfig).header "Authorization" = some "Bearer abc" := by
  have h := (C5_auth_precedence e2eConfig).1 (by decide)
  exact ⟨h.1, h.2.1, h.2.2.1, h.2.2.2⟩

/-- Claim C6 counterexample: normalization is not idempotent.  The
address x// normalizes to https://x/ (one slash stripped, scheme
added), and normalizing that output again strips the remaining slash,
changing it. -/
theorem C6_counterexample :
    process_server_address (some "x//") = Except.ok "https://x/" ∧
    process_server_address (some "https://x/") = Except.ok "https://x" ∧
    ("https://x" : String) ≠ "https://x/" :=
  ⟨rfl, rfl, by decide⟩

/-- Claim C6 amended: normalization of a non-empty address strips
exactly one trailing slash and then defaults the scheme to https (the
spec-worded composition); normalizing http://x/ and http://x yield the
same result http://x, and x.com yields https://x.com; idempotence holds
for every normalization output that does not end with a slash (hence
for every input with at most one trailing slash), though not in
general. -/
theorem C6_amended_normalization :
    (∀ s, s ≠ "" → process_server_address (some s)
        = Except.ok (spec_add_scheme (spec_strip s))) ∧
    process_server_address (some "http://x/")
      = process_server_address (some "http://x") ∧
    process_server_address (some "http://x") = Except.ok "http://x" ∧
    process_server_address (some "x.com") = Except.ok "https://x.com" ∧
    (∀ s r, process_server_address (some s) = Except.ok r →
      strEndsWithSlash r = false →
      process_server_address (some r) = Except.ok r) := by
  refine ⟨process_ok_characterization, rfl, rfl, rfl, ?_⟩
  intro s r h hr
  exact process_idempotent_of_no_trailing s r h hr

/-- Witness for C6 amended: normalizing ci.example.com gives
https://ci.example.com, and normalizing that output changes nothing. -/
theorem C6_amended_normalization_witness :
    process_server_address (some "ci.example.com")
      = Except.ok "https://ci.example.com" ∧
    process_server_address (some "https://ci.example.com")
      = Except.ok "https://ci.example.com" := by
  have h := C6_amended_normalization
  have h1 : process_server_address (some "ci.example.com")
      = Except.ok "https://ci.example.com" :=
    (h.1 "ci.example.com" (by decide)).trans (by rfl)
  exact ⟨h1, h.2.2.2.2 "ci.example.com" "https://ci.example.com" h1 (by decide)⟩

/-- Claim C7 counterexample: one request execution constructs one fresh
requests.Session of its own (the count is 1 for the call, not 0), so
the session context is created per request rather than once at client
initialization and reused. -/
theorem C7_counterexample :
    (request_base tokenClient t200 "builds" "GET" emptyHeaders 3).sessions_created = 1 ∧
    (request_base tokenClient t200 "builds" "GET" emptyHeaders 3).sessions_created ≠ 0 :=
  ⟨rfl, by decide⟩

/-- Claim C7 amended: every call to request_base constructs exactly one
fresh session context; none is created at client initialization and
none is shared across calls. -/
theorem C7_amended_session_per_request (c : Client) (t : Transport)
    (url m : String) (eh : Headers) (r : Nat) :
    (request_base c t url m eh r).sessions_created = 1 := rfl

/-- Claim C8 counterexample: after one request carrying the extra
header X-Custom, the client default header map has absorbed it, because
request_base aliases self.header and updates it in place: the defaults
after the call differ from those produced at initialization. -/
theorem C8_counterexample :
    (request_base tokenClient t200 "builds" "GET"
      (dictSet emptyHeaders "X-Custom" "1") 3).client.header
      ≠ tokenClient.header := by
  intro h
  have h1 : (request_base tokenClient t200 "builds" "GET"
      (dictSet emptyHeaders "X-Custom" "1") 3).client.header "X-Custom"
      = some "1" := rfl
  rw [h] at h1
  have h2 : tokenClient.header "X-Custom" = none := rfl
  rw [h2] at h1
  exact Option.noConfusion h1

/-- Claim C8 amended: the dispatched headers are the caller extra
headers merged over the strategy defaults, with the caller winning on
key collision and untouched keys falling back to the defaults; but the
merge is performed in place on the client default header map, so after
the call the client defaults equal the merged map instead of the map
produced at initialization. -/
theorem C8_amended_header_merge (c : Client) (t : Transport)
    (url m : String) (eh : Headers) (r : Nat) :
    (request_base c t url m eh r).headers_sent = dictUpdate c.header eh ∧
    (request_base c t url m eh r).client.header
      = (request_base c t url m eh r).headers_sent ∧
    (∀ k v, eh k = some v →
      (request_base c t url m eh r).headers_sent k = some v) ∧
    (∀ k, eh k = none →
      (request_base c t url m eh r).headers_sent k = c.header k) := by
  refine ⟨rfl, rfl, ?_, ?_⟩
  · intro k v hk
    show dictUpdate c.header eh k = some v
    simp [dictUpdate, hk]
  · intro k hk
    show dictUpdate c.header eh k = c.header k
    simp [dictUpdate, hk]

/-- Witness for C8 amended: a caller Accept header overrides the
default Accept application/json in the dispatched headers. -/
theorem C8_amended_header_merge_witness :
    (request_base tokenClient t200 "builds" "GET"
      (dictSet emptyHeaders "Accept" "text/xml") 3).headers_sent "Accept"
      = some "text/xml" := by
  have h := C8_amended_header_merge tokenClient t200 "builds" "GET"
    (dictSet emptyHeaders "Accept" "text/xml") 3
  exact h.2.2.1 "Accept" "text/xml" rfl

/-- Claim C9: when the first transport invocation yields status 200,
get_request decodes the body with response.json(): a well-formed
key/value document comes back as exactly its mapping, and a malformed
body fails with the decode error; in both cases exactly one transport
invocation was made, so nothing is retried after the 200 response. -/
theorem C9_structured_decode (c : Client) (t : Transport) (url : String)
    (eh : Headers) (r : Nat)
    (hauth : c.authentication_method ≠ AuthMethod.LOGGED_IN) :
    (∀ kvs, t 0 = TransportResult.resp 200 (Body.wellFormed kvs) →
      (get_request c t url eh (r + 1)).result = Except.ok kvs ∧
      (get_request c t url eh (r + 1)).outcome.dispatches = 1) ∧
    (t 0 = TransportResult.resp 200 Body.malformed →
      (get_request c t url eh (r + 1)).result = Except.error GetError.decodeError ∧
      (get_request c t url eh (r + 1)).outcome.dispatches = 1) := by
  constructor
  · intro kvs h0
    have a0 := attempt_eq_of_resp c.authentication_method hauth t 0 none
      200 (Body.wellFormed kvs) h0
    have hloop := request_loop_succ_200 c.authentication_method t r 0 none
      (Body.wellFormed kvs) a0
    constructor
    · rw [get_request_result_eq]
      have hres : (request_base c t url "GET"
          (dictSet eh "Accept" "application/json") (r + 1)).result
          = Except.ok (Response.mk 200 (Body.wellFormed kvs)) := by
        show (request_loop c.authentication_method t (r + 1) 0 none).1 = _
        rw [hloop]
      rw [hres]
      rfl
    · rw [get_request_outcome_eq]
      show (request_loop c.authentication_method t (r + 1) 0 none).2 = 1
      rw [hloop]
  · intro h0
    have a0 := attempt_eq_of_resp c.authentication_method hauth t 0 none
      200 Body.malformed h0
    have hloop := request_loop_succ_200 c.authentication_method t r 0 none
      Body.malformed a0
    constructor
    · rw [get_request_result_eq]
      have hres : (request_base c t url "GET"
          (dictSet eh "Accept" "application/json") (r + 1)).result
          = Except.ok (Response.mk 200 Body.malformed) := by
        show (request_loop c.authentication_method t (r + 1) 0 none).1 = _
        rw [hloop]
      rw [hres]
      rfl
    · rw [get_request_outcome_eq]
      show (request_loop c.authentication_method t (r + 1) 0 none).2 = 1
      rw [hloop]

/-- Witness for C9: the token client against a 200 stub with a
well-formed body and against a 200 stub with a malformed body. -/
theorem C9_structured_decode_witness :
    (get_request tokenClient t200 "builds" emptyHeaders 3).result
      = Except.ok [("count", "1")] ∧
    (get_request tokenClient (fun _ => TransportResult.resp 200 Body.malformed)
      "builds" emptyHeaders 3).result = Except.error GetError.decodeError := by
  have h1 := (C9_structured_decode tokenClient t200 "builds" emptyHeaders 2
    (by decide)).1 [("count", "1")] rfl
  have h2 := (C9_structured_decode tokenClient
    (fun _ => TransportResult.resp 200 Body.malformed) "builds" emptyHeaders 2
    (by decide)).2 rfl
  exact ⟨h1.1, h2.1⟩

/-- Claim C10: the POST path forces Content-Type application/json into
the dispatched headers whatever the caller supplied for that key, and
writes it into the caller extra-headers dict itself; symmetrically the
structured GET path forces Accept application/json into the dispatched
headers and into the caller extra-headers dict. -/
theorem C10_forced_headers (c : Client) (t : Transport) (url : String)
    (eh : Headers) (r : Nat) :
    (post_request c t url eh r).outcome.headers_sent "Content-Type"
      = some "application/json" ∧
    (post_request c t url eh r).extra_headers_after "Content-Type"
      = some "application/json" ∧
    (post_request c t url (dictSet eh "Content-Type" "text/xml") r).outcome.headers_sent
      "Content-Type" = some "application/json" ∧
    (get_request c t url eh r).outcome.headers_sent "Accept"
      = some "application/json" ∧
    (get_request c t url eh r).extra_headers_after "Accept"
      = some "application/json" :=
  ⟨rfl, rfl, rfl, rfl, rfl⟩

end TeamCity
